import Mathlib

/-!
Verification of the aggregation and geospatial-filtering
logic (`src/index.ts`): the risk classifier, the outbound query builders,
the volcano text search, the volcano radius filter/ranker used by the
report endpoint, the fail-fast join of the two upstream fetches of the report,
and the haversine distance calculation.

Numeric JS values are modelled as exact numbers: integers/milliseconds as
`ℤ`, magnitudes and other JSON numbers as `ℚ`, and the trigonometric
distance computation over `ℝ`.  The filter/sort/truncate pipeline is kept
generic in the ordered key type so that its theorems cover the
instantiation of the report with real-valued haversine distances.
-/

namespace Geohazards

/-! ### Risk classifier (lines 299-302 of `index.ts`) -/

/-- The four ordinal risk levels produced by the report endpoint. -/
inductive RiskLevel where
  | MINIMAL
  | LOW
  | MODERATE
  | HIGH
deriving DecidableEq, Repr

/-- Ordinal rank of a risk level: MINIMAL < LOW < MODERATE < HIGH. -/
def RiskLevel.severity : RiskLevel → ℕ
  | .MINIMAL => 0
  | .LOW => 1
  | .MODERATE => 2
  | .HIGH => 3

/-- The risk classifier chain of the report handler: HIGH when the count
exceeds 10, else MODERATE when it exceeds 3, else LOW when it exceeds 0,
else MINIMAL. -/
def riskLevel (significantQuakeCount : ℕ) : RiskLevel :=
  if significantQuakeCount > 10 then .HIGH
  else if significantQuakeCount > 3 then .MODERATE
  else if significantQuakeCount > 0 then .LOW
  else .MINIMAL

/-! ### Outbound query construction

Each USGS earthquake query URL is modelled as its list of query parameters
in the order they are appended to the URL string.  Times are epoch
milliseconds (`ℤ`), mirroring `Date.getTime()`; `now` is the request
timestamp and start times are serialized from `now` minus the lookback
window. -/

/-- A query-string parameter value (string, integer, or JSON number). -/
inductive QueryValue where
  | str (s : String)
  | int (n : ℤ)
  | rat (q : ℚ)
deriving DecidableEq, Repr

/-- Parameters of the earthquake query of the free overview endpoint:
24-hour lookback, minimum magnitude 4, limit 5, ordered by magnitude. -/
def overviewQuery (now : ℤ) : List (String × QueryValue) :=
  [("format", .str "geojson"),
   ("starttime", .int (now - 24 * 60 * 60 * 1000)),
   ("minmagnitude", .int 4),
   ("limit", .int 5),
   ("orderby", .str "magnitude")]

/-- Parameters of the earthquake query of the lookup endpoint: only the
event id and the format. -/
def lookupQuery (eventId : String) : List (String × QueryValue) :=
  [("eventid", .str eventId),
   ("format", .str "geojson")]

/-- Parameters of the earthquake query of the search endpoint.  The
spatial block (`latitude`, `longitude`, `maxradiuskm`) is appended only
when the caller supplied both coordinates; `maxmagnitude` only when
supplied. -/
def searchQuery (now : ℤ) (latitude longitude : Option ℚ) (radiusKm : ℚ)
    (minMagnitude : ℚ) (maxMagnitude : Option ℚ) (days : ℕ) (limit : ℕ) :
    List (String × QueryValue) :=
  [("format", .str "geojson"),
   ("starttime", .int (now - days * 24 * 60 * 60 * 1000)),
   ("minmagnitude", .rat minMagnitude),
   ("limit", .int limit),
   ("orderby", .str "time")]
  ++ (match latitude, longitude with
      | some la, some lo =>
        [("latitude", .rat la), ("longitude", .rat lo), ("maxradiuskm", .rat radiusKm)]
      | _, _ => [])
  ++ (match maxMagnitude with
      | some m => [("maxmagnitude", .rat m)]
      | none => [])

/-- Time period selector of the `top` endpoint. -/
inductive Period where
  | day
  | week
  | month
deriving DecidableEq, Repr

/-- Lookback in days for each period: 1, 7 or 30. -/
def daysBack : Period → ℕ
  | .day => 1
  | .week => 7
  | .month => 30

/-- Parameters of the earthquake query of the top endpoint. -/
def topQuery (now : ℤ) (period : Period) (minMagnitude : ℚ) (limit : ℕ) :
    List (String × QueryValue) :=
  [("format", .str "geojson"),
   ("starttime", .int (now - daysBack period * 24 * 60 * 60 * 1000)),
   ("minmagnitude", .rat minMagnitude),
   ("limit", .int limit),
   ("orderby", .str "magnitude")]

/-- Parameters of the earthquake query of the report endpoint: 30-day
lookback, spatial filter always present, minimum magnitude 2, limit 50,
ordered by magnitude. -/
def reportQuakeQuery (now : ℤ) (latitude longitude radiusKm : ℚ) :
    List (String × QueryValue) :=
  [("format", .str "geojson"),
   ("starttime", .int (now - 30 * 24 * 60 * 60 * 1000)),
   ("latitude", .rat latitude),
   ("longitude", .rat longitude),
   ("maxradiuskm", .rat radiusKm),
   ("minmagnitude", .int 2),
   ("limit", .int 50),
   ("orderby", .str "magnitude")]

/-- The keys of a query parameter list. -/
def queryKeys (q : List (String × QueryValue)) : List String :=
  q.map Prod.fst

/-! ### Volcano records and the `volcanoSearch` text filter

Upstream volcano records may lack `country` or `vName`; those fields are
`Option` so that the optional-chaining predicates
of the search handler can be modelled exactly. -/

/-- One record of the upstream volcano list (`volcanoesGVP`). -/
structure Volcano where
  vnum : ℤ
  vName : Option String
  country : Option String
  subregion : String
  latitude : ℝ
  longitude : ℝ
  elevation_m : ℚ
  obsAbbr : Option String
  webpage : Option String

/-- Lowercasing of a string, as the JS toLowerCase call. -/
def lowerStr (s : String) : String :=
  String.mk (s.data.map Char.toLower)

/-- Containment test of the JS includes call: contiguous substring. -/
def strIncludes (hay needle : String) : Bool :=
  hay.data.tails.any fun t => needle.data.isPrefixOf t

/-- Case-insensitive country predicate of the search handler; a missing
country field makes the predicate false (optional chaining yields a falsy
value). -/
def matchesCountry (c : String) (v : Volcano) : Bool :=
  match v.country with
  | none => false
  | some s => strIncludes (lowerStr s) (lowerStr c)

/-- Case-insensitive name predicate of the search handler; a missing
name field makes the predicate false (optional chaining yields a falsy
value). -/
def matchesName (n : String) (v : Volcano) : Bool :=
  match v.vName with
  | none => false
  | some s => strIncludes (lowerStr s) (lowerStr n)

/-- Local filtering of the volcanoSearch handler: apply the country
filter when it is truthy (supplied and nonempty), then the name filter
when truthy, then take the first limit records. -/
def volcanoSearch (data : List Volcano) (country nm : Option String)
    (limit : ℕ) : List Volcano :=
  let f1 := match country with
    | some c => if c = "" then data else data.filter (matchesCountry c)
    | none => data
  let f2 := match nm with
    | some n => if n = "" then f1 else f1.filter (matchesName n)
    | none => f1
  f2.take limit

/-! ### The volcano filter/ranker of the report (lines 288-295)

The source maps every record to a distance-annotated copy, filters by
distance at most radius, sorts by a comparator subtracting distances,
and slices to the first 20.

The pipeline is kept generic in the record type `V` and in the linearly
ordered key type `α` of the distance function `d`, so its theorems apply
to the instantiation by the report with real-valued haversine distances.
The JavaScript array sort is a stable sort; it is modelled by
`List.insertionSort` with the non-strict key comparison, which places an
element being inserted before the first element whose key is ≥ its own
and therefore keeps equal-key elements in input order. -/

/-- The rank pipeline of the report: annotate each record with its distance,
keep those within the radius (inclusive), stable-sort ascending by
distance, truncate to `limit`. -/
def rank {V α : Type} [LinearOrder α] (d : V → α) (radiusKm : α)
    (limit : ℕ) (volcanoes : List V) : List (V × α) :=
  ((((volcanoes.map fun v => (v, d v)).filter
      fun p => p.2 ≤ radiusKm).insertionSort
        fun a b => a.2 ≤ b.2).take limit)

/-! ### The report aggregator and its fail-fast upstream join -/

/-- An upstream HTTP response: `ok` is `response.ok`, `status` the HTTP
status code, `body` the decoded JSON payload. -/
structure Response (β : Type) where
  ok : Bool
  status : ℕ
  body : β

/-- The fetch helper: returns the body on a success status and
otherwise throws an API error naming the status. -/
def fetchJSON {β : Type} (r : Response β) : Except String β :=
  if r.ok then Except.ok r.body
  else Except.error ("API error: " ++ toString r.status)

/-- One feature of the earthquake GeoJSON response, restricted to the
fields the report endpoint reads. -/
structure Feature where
  id : String
  mag : ℚ
  place : String
  time : ℤ
  depth : ℚ

/-- The earthquake GeoJSON response body. -/
structure EarthquakeData where
  metadataCount : ℕ
  features : List Feature

/-- One entry of the recent-earthquakes preview of the report. -/
structure QuakeSummary where
  id : String
  magnitude : ℚ
  location : String
  time : ℤ
  depth : ℚ

/-- One entry of the nearby-volcanoes output list of the report (distance
rounded to an integer). -/
structure RankedVolcanoOut where
  name : Option String
  country : Option String
  distanceKm : ℤ
  elevation : ℚ
  observatory : Option String

/-- Output shape of the report endpoint (location echo, risk block,
capped earthquake preview, ranked volcano list). -/
structure ReportOutput (α : Type) where
  latitude : ℝ
  longitude : ℝ
  radiusKm : α
  level : RiskLevel
  earthquakesLast30Days : ℕ
  significantQuakes : ℕ
  nearbyVolcanoCount : ℕ
  recentEarthquakes : List QuakeSummary
  nearbyVolcanoes : List RankedVolcanoOut

/-- The successful-path shaping of the report output: rank the volcano
list (cap 20), count features with magnitude ≥ 4, classify risk, preview
the first 15 features, and reformat the ranked volcanoes with rounded
distances (`rnd` models `Math.round` on the distance key type). -/
def shapeReport {α : Type} [LinearOrder α] (lat lon : ℝ) (d : Volcano → α)
    (rnd : α → ℤ) (radiusKm : α) (eqData : EarthquakeData)
    (volcanoData : List Volcano) : ReportOutput α :=
  let nearby := rank d radiusKm 20 volcanoData
  let significant := eqData.features.filter fun f => (4 : ℚ) ≤ f.mag
  ⟨lat, lon, radiusKm,
    riskLevel significant.length,
    eqData.metadataCount,
    significant.length,
    nearby.length,
    (eqData.features.take 15).map fun f => ⟨f.id, f.mag, f.place, f.time, f.depth⟩,
    nearby.map fun p => ⟨p.1.vName, p.1.country, rnd p.2, p.1.elevation_m, p.1.obsAbbr⟩⟩

/-- The concurrent join of the two upstream fetches in the report
handler: the report output is produced only when both fetches succeed; a
failure of either rejects the whole operation with the error of that
fetch. -/
def reportCore {α : Type} [LinearOrder α] (lat lon : ℝ) (d : Volcano → α)
    (rnd : α → ℤ) (radiusKm : α) (eqResp : Response EarthquakeData)
    (vResp : Response (List Volcano)) : Except String (ReportOutput α) :=
  match fetchJSON eqResp, fetchJSON vResp with
  | Except.ok eqData, Except.ok volcanoData =>
      Except.ok (shapeReport lat lon d rnd radiusKm eqData volcanoData)
  | Except.error e, _ => Except.error e
  | _, Except.error e => Except.error e

/-! ### The haversine distance calculator (lines 277-286) -/

noncomputable section

/-- Conversion from degrees to radians. -/
def toRad (deg : ℝ) : ℝ := deg * Real.pi / 180

/-- The two-argument arctangent, as the argument of the complex number
with real part x and imaginary part y. -/
def atan2 (y x : ℝ) : ℝ := Complex.arg ⟨x, y⟩

/-- The intermediate `a` value of the haversine computation:
`sin(dLat/2)*sin(dLat/2) + cos(lat1)*cos(lat2)*sin(dLon/2)*sin(dLon/2)`
with `dLat = toRad(lat2-lat1)` and `dLon = toRad(lon2-lon1)`. -/
def haversineA (lat1 lon1 lat2 lon2 : ℝ) : ℝ :=
  Real.sin (toRad (lat2 - lat1) / 2) * Real.sin (toRad (lat2 - lat1) / 2) +
    Real.cos (toRad lat1) * Real.cos (toRad lat2) *
      Real.sin (toRad (lon2 - lon1) / 2) * Real.sin (toRad (lon2 - lon1) / 2)

/-- The haversine great-circle distance:
`R * 2 * atan2(sqrt(a), sqrt(1-a))` with `R = 6371` km.  The source
computes `sqrt(1-a)` directly, without clamping `a`. -/
def haversine (lat1 lon1 lat2 lon2 : ℝ) : ℝ :=
  6371 * 2 * atan2 (Real.sqrt (haversineA lat1 lon1 lat2 lon2))
    (Real.sqrt (1 - haversineA lat1 lon1 lat2 lon2))

/-- Clamp a real number to `[0, 1]`. -/
def clamp01 (x : ℝ) : ℝ := max 0 (min 1 x)

/-- Modelled from the spec: the variant of the distance calculation the
spec describes, in which the argument of the inner square root is clamped
to `[0, 1]` before the inverse trigonometric step.  The source code has
no such clamp; this definition exists to be compared with `haversine`. -/
def haversineClamped (lat1 lon1 lat2 lon2 : ℝ) : ℝ :=
  6371 * 2 * atan2 (Real.sqrt (clamp01 (haversineA lat1 lon1 lat2 lon2)))
    (Real.sqrt (1 - clamp01 (haversineA lat1 lon1 lat2 lon2)))

/-- The volcano ranking as actually instantiated by the report:
haversine distance from the center of the report, radius bound, cap 20. -/
def nearbyVolcanoes (lat lon : ℝ) (radiusKm : ℝ) (volcanoData : List Volcano) :
    List (Volcano × ℝ) :=
  rank (fun v => haversine lat lon v.latitude v.longitude) radiusKm 20 volcanoData

end

/-! ### Sample data used by the concrete witnesses -/

/-- A concrete volcano record with all optional fields present. -/
def sampleVolcano : Volcano :=
  ⟨283030, some "Fuji", some "Japan", "Honshu", 35.36, 138.73, 3776, some "JMA", none⟩

/-- A concrete volcano record whose `vName` and `country` are missing. -/
def nullVolcano : Volcano :=
  ⟨0, none, none, "Unnamed region", 0, 0, 0, none, none⟩

/-- A concrete earthquake feature of magnitude 5. -/
def sampleFeature : Feature :=
  ⟨"us6000s5e4", 5, "offshore", 1700000000000, 10⟩

/-! ## Theorems -/

/-- Claim C2: the risk classifier returns HIGH iff the significant-quake
count exceeds 10, MODERATE iff it is in (3, 10], LOW iff in (0, 3], and
MINIMAL iff it is 0; it is total on `ℕ` by construction and monotone
non-decreasing in its argument with respect to severity order. -/
theorem riskLevel_thresholds_and_monotone (n : ℕ) :
    (riskLevel n = .HIGH ↔ 10 < n)
    ∧ (riskLevel n = .MODERATE ↔ 3 < n ∧ n ≤ 10)
    ∧ (riskLevel n = .LOW ↔ 0 < n ∧ n ≤ 3)
    ∧ (riskLevel n = .MINIMAL ↔ n = 0)
    ∧ ∀ m, m ≤ n → (riskLevel m).severity ≤ (riskLevel n).severity := by
  refine ⟨?_, ?_, ?_, ?_, ?_⟩
  · unfold riskLevel; split_ifs <;> simp <;> omega
  · unfold riskLevel; split_ifs <;> simp <;> omega
  · unfold riskLevel; split_ifs <;> simp <;> omega
  · unfold riskLevel; split_ifs <;> simp <;> omega
  · intro m hm
    unfold riskLevel
    split_ifs <;> simp only [RiskLevel.severity] <;> omega

/-- Concrete instance of the monotonicity part of
`riskLevel_thresholds_and_monotone`: 2 ≤ 5 significant quakes. -/
theorem riskLevel_thresholds_and_monotone_witness :
    (riskLevel 2).severity ≤ (riskLevel 5).severity :=
  (riskLevel_thresholds_and_monotone 5).2.2.2.2 2 (by decide)

/-- Claim C5 counterexample: the lookup-by-id query is built as
`?eventid=...&format=geojson`; it contains neither a start time nor an
ordering key, refuting the claim for the lookup operation. -/
theorem lookupQuery_lacks_starttime_and_orderby :
    "starttime" ∉ queryKeys (lookupQuery "us6000s5e4")
    ∧ "orderby" ∉ queryKeys (lookupQuery "us6000s5e4") := by
  simp [lookupQuery, queryKeys]

/-- Claim C5 (amended): every time-windowed seismic query — the overview,
search, top, and report queries, i.e. all seismic queries except
lookup-by-id — includes a start time equal to `now` minus its lookback
window and an `orderby` key. -/
theorem seismic_window_queries_have_starttime_and_orderby
    (now : ℤ) (latitude longitude : Option ℚ) (radiusKm minMagnitude : ℚ)
    (maxMagnitude : Option ℚ) (days limit : ℕ) (period : Period)
    (rlat rlon rrad : ℚ) :
    (("starttime", QueryValue.int (now - 24 * 60 * 60 * 1000)) ∈ overviewQuery now
      ∧ "orderby" ∈ queryKeys (overviewQuery now))
    ∧ (("starttime", QueryValue.int (now - days * 24 * 60 * 60 * 1000))
          ∈ searchQuery now latitude longitude radiusKm minMagnitude maxMagnitude days limit
      ∧ "orderby" ∈ queryKeys
          (searchQuery now latitude longitude radiusKm minMagnitude maxMagnitude days limit))
    ∧ (("starttime", QueryValue.int (now - daysBack period * 24 * 60 * 60 * 1000))
          ∈ topQuery now period minMagnitude limit
      ∧ "orderby" ∈ queryKeys (topQuery now period minMagnitude limit))
    ∧ (("starttime", QueryValue.int (now - 30 * 24 * 60 * 60 * 1000))
          ∈ reportQuakeQuery now rlat rlon rrad
      ∧ "orderby" ∈ queryKeys (reportQuakeQuery now rlat rlon rrad)) := by
  refine ⟨⟨?_, ?_⟩, ⟨?_, ?_⟩, ⟨?_, ?_⟩, ⟨?_, ?_⟩⟩ <;>
    simp [overviewQuery, searchQuery, topQuery, reportQuakeQuery, queryKeys]

/-- Claim C6: the search query carries the spatial filter parameters
(`latitude`, `longitude`, `maxradiuskm`) exactly when both coordinates
were supplied; supplying only one attaches no spatial parameter. -/
theorem searchQuery_spatial_iff_both_coords
    (now : ℤ) (latitude longitude : Option ℚ) (radiusKm minMagnitude : ℚ)
    (maxMagnitude : Option ℚ) (days limit : ℕ) :
    ("latitude" ∈ queryKeys
        (searchQuery now latitude longitude radiusKm minMagnitude maxMagnitude days limit)
      ↔ latitude.isSome ∧ longitude.isSome)
    ∧ ("longitude" ∈ queryKeys
        (searchQuery now latitude longitude radiusKm minMagnitude maxMagnitude days limit)
      ↔ latitude.isSome ∧ longitude.isSome)
    ∧ ("maxradiuskm" ∈ queryKeys
        (searchQuery now latitude longitude radiusKm minMagnitude maxMagnitude days limit)
      ↔ latitude.isSome ∧ longitude.isSome) := by
  cases latitude <;> cases longitude <;> cases maxMagnitude <;>
    simp [searchQuery, queryKeys]

/-- Reduction of `volcanoSearch` when both filters are truthy. -/
theorem volcanoSearch_some_some (data : List Volcano) (c n : String)
    (limit : ℕ) (hc : c ≠ "") (hn : n ≠ "") :
    volcanoSearch data (some c) (some n) limit
      = ((data.filter (matchesCountry c)).filter (matchesName n)).take limit := by
  simp [volcanoSearch, hc, hn]

/-- Reduction of `volcanoSearch` with only a truthy country filter. -/
theorem volcanoSearch_some_none (data : List Volcano) (c : String)
    (limit : ℕ) (hc : c ≠ "") :
    volcanoSearch data (some c) none limit
      = (data.filter (matchesCountry c)).take limit := by
  simp [volcanoSearch, hc]

/-- Claim C7: when truthy country and name filters are both supplied,
every record returned by `volcanoSearch` satisfies both case-insensitive
substring predicates (AND semantics). -/
theorem volcanoSearch_both_filters_and (data : List Volcano) (c n : String)
    (limit : ℕ) (hc : c ≠ "") (hn : n ≠ "") :
    ∀ v ∈ volcanoSearch data (some c) (some n) limit,
      matchesCountry c v = true ∧ matchesName n v = true := by
  intro v hv
  rw [volcanoSearch_some_some data c n limit hc hn] at hv
  have h2 := List.mem_filter.mp (List.mem_of_mem_take hv)
  have h3 := List.mem_filter.mp h2.1
  exact ⟨h3.2, h2.2⟩

/-- Concrete instance of `volcanoSearch_both_filters_and`: filters
"Jap"/"fu" on a one-record list, evaluated at the record the search
returns. -/
theorem volcanoSearch_both_filters_and_witness :
    matchesCountry "Jap" sampleVolcano = true
    ∧ matchesName "fu" sampleVolcano = true :=
  volcanoSearch_both_filters_and [sampleVolcano] "Jap" "fu" 20
    (by decide) (by decide) sampleVolcano (List.mem_singleton.mpr rfl)

/-- Claim C9: when a truthy country (resp. name) filter is supplied,
every record returned by `volcanoSearch` has a present `country`
(resp. `vName`) field — records with the field missing are silently
excluded, and the (total) search function never fails on them. -/
theorem volcanoSearch_null_fields_excluded (data : List Volcano)
    (country nm : Option String) (limit : ℕ) :
    (∀ c, country = some c → c ≠ "" →
      ∀ v ∈ volcanoSearch data country nm limit, v.country.isSome = true)
    ∧ (∀ n, nm = some n → n ≠ "" →
      ∀ v ∈ volcanoSearch data country nm limit, v.vName.isSome = true) := by
  constructor
  · intro c hcountry hc v hv
    subst hcountry
    have hf1 : v ∈ data.filter (matchesCountry c) := by
      rcases nm with _ | n
      · rw [volcanoSearch_some_none data c limit hc] at hv
        exact List.mem_of_mem_take hv
      · by_cases hn : n = ""
        · subst hn
          rw [show volcanoSearch data (some c) (some "") limit
              = (data.filter (matchesCountry c)).take limit from by
            simp [volcanoSearch, hc]] at hv
          exact List.mem_of_mem_take hv
        · rw [volcanoSearch_some_some data c n limit hc hn] at hv
          exact (List.mem_filter.mp (List.mem_of_mem_take hv)).1
    have hmatch := (List.mem_filter.mp hf1).2
    unfold matchesCountry at hmatch
    rcases hcv : v.country with _ | s
    · rw [hcv] at hmatch; simp at hmatch
    · rfl
  · intro n hnm hn v hv
    subst hnm
    have hf2 : matchesName n v = true := by
      rcases country with _ | c
      · rw [show volcanoSearch data none (some n) limit
            = (data.filter (matchesName n)).take limit from by
          simp [volcanoSearch, hn]] at hv
        exact (List.mem_filter.mp (List.mem_of_mem_take hv)).2
      · by_cases hc : c = ""
        · subst hc
          rw [show volcanoSearch data (some "") (some n) limit
              = (data.filter (matchesName n)).take limit from by
            simp [volcanoSearch, hn]] at hv
          exact (List.mem_filter.mp (List.mem_of_mem_take hv)).2
        · rw [volcanoSearch_some_some data c n limit hc hn] at hv
          exact (List.mem_filter.mp (List.mem_of_mem_take hv)).2
    unfold matchesName at hf2
    rcases hnv : v.vName with _ | s
    · rw [hnv] at hf2; simp at hf2
    · rfl

/-- Concrete instance of `volcanoSearch_null_fields_excluded`: a search
over a list containing a record with missing fields returns only records
with a present country field; evaluated at the one record returned. -/
theorem volcanoSearch_null_fields_excluded_witness :
    sampleVolcano.country.isSome = true :=
  (volcanoSearch_null_fields_excluded [nullVolcano, sampleVolcano]
    (some "jap") none 20).1 "jap" rfl (by decide) sampleVolcano
    (List.mem_singleton.mpr rfl)

/-- Inserting an element into a list moves it past strictly smaller keys
only, so the sublist of key-`k` elements is unchanged except for the
inserted element being put first when its own key is `k`. -/
theorem filter_orderedInsert_snd {V α : Type} [LinearOrder α] (k : α)
    (x : V × α) (m : List (V × α)) :
    ((m.orderedInsert (fun a b => a.2 ≤ b.2) x).filter fun p => p.2 = k)
      = if x.2 = k then x :: (m.filter fun p => p.2 = k)
        else m.filter fun p => p.2 = k := by
  induction m with
  | nil =>
    by_cases hx : x.2 = k <;> simp [List.orderedInsert, hx]
  | cons b m ih =>
    simp only [List.orderedInsert]
    by_cases hle : x.2 ≤ b.2
    · rw [if_pos hle]
      by_cases hx : x.2 = k <;> by_cases hb : b.2 = k <;>
        simp [List.filter_cons, hx, hb]
    · rw [if_neg hle]
      have hlt := not_le.mp hle
      by_cases hb : b.2 = k
      · have hxk : ¬(x.2 = k) := by
          intro h
          rw [h, hb] at hlt
          exact lt_irrefl k hlt
        simp [List.filter_cons, hb, hxk, ih]
      · by_cases hx : x.2 = k <;>
          simp [List.filter_cons, hb, hx, ih]

/-- The stability of `insertionSort` with the non-strict key comparison:
sorting does not change the relative order of elements with the same key. -/
theorem filter_insertionSort_snd {V α : Type} [LinearOrder α] (k : α) :
    ∀ l : List (V × α),
      ((l.insertionSort fun a b => a.2 ≤ b.2).filter fun p => p.2 = k)
        = l.filter fun p => p.2 = k
  | [] => rfl
  | x :: l => by
    simp only [List.insertionSort]
    rw [filter_orderedInsert_snd k x]
    rw [filter_insertionSort_snd k l]
    by_cases hx : x.2 = k <;> simp [hx, List.filter_cons]

open List in
/-- Claim C1: the rank pipeline keeps only records whose distance is at
most the radius (inclusive), its output is sorted non-decreasing by
distance, ties keep the original list order (the key-`k` elements of the
output are a prefix of the key-`k` elements of the filtered input, in
input order), and its length is at most the limit and at most the number
of records within the radius. -/
theorem rank_spec {V α : Type} [LinearOrder α] [Zero α] (d : V → α) (radiusKm : α)
    (limit : ℕ) (volcanoes : List V) (hr : 0 ≤ radiusKm) :
    (∀ p ∈ rank d radiusKm limit volcanoes, p.2 ≤ radiusKm)
    ∧ List.Sorted (fun a b : V × α => a.2 ≤ b.2) (rank d radiusKm limit volcanoes)
    ∧ (rank d radiusKm limit volcanoes).length ≤ limit
    ∧ (rank d radiusKm limit volcanoes).length
        ≤ (volcanoes.filter fun v => d v ≤ radiusKm).length
    ∧ ∀ k : α,
        ((rank d radiusKm limit volcanoes).filter fun p => p.2 = k)
          <+: (((volcanoes.map fun v => (v, d v)).filter
                fun p => p.2 ≤ radiusKm).filter fun p => p.2 = k) := by
  set filtered := (volcanoes.map fun v => (v, d v)).filter
    fun p => p.2 ≤ radiusKm with hfil
  set sorted := filtered.insertionSort (fun a b => a.2 ≤ b.2) with hsort
  have hrank : rank d radiusKm limit volcanoes = sorted.take limit := rfl
  refine ⟨?_, ?_, ?_, ?_, ?_⟩
  · intro p hp
    rw [hrank] at hp
    have h1 := List.mem_of_mem_take hp
    have h2 := (List.perm_insertionSort
      (fun a b : V × α => a.2 ≤ b.2) filtered).mem_iff.mp h1
    have h3 := List.mem_filter.mp h2
    simpa using h3.2
  · rw [hrank]
    haveI : IsTotal (V × α) (fun a b => a.2 ≤ b.2) :=
      ⟨fun a b => le_total a.2 b.2⟩
    haveI : IsTrans (V × α) (fun a b => a.2 ≤ b.2) :=
      ⟨fun _ _ _ h1 h2 => le_trans h1 h2⟩
    exact (List.sorted_insertionSort _ filtered).sublist
      (List.take_sublist limit sorted)
  · rw [hrank]
    exact sorted.length_take_le limit
  · rw [hrank]
    have h1 : (sorted.take limit).length ≤ sorted.length :=
      (List.take_sublist limit sorted).length_le
    have h2 : sorted.length = filtered.length :=
      (List.perm_insertionSort (fun a b : V × α => a.2 ≤ b.2) filtered).length_eq
    have h3 : filtered.length = (volcanoes.filter fun v => d v ≤ radiusKm).length := by
      rw [hfil, ← List.countP_eq_length_filter, ← List.countP_eq_length_filter,
        List.countP_map]
      rfl
    omega
  · intro k
    rw [hrank]
    have hp := List.take_prefix limit sorted
    have hpre := hp.filter fun p : V × α => p.2 = k
    have heq := filter_insertionSort_snd k filtered
    rw [hsort]
    exact heq ▸ hpre

/-- A concrete check of the pipeline, ties included: keys of 3, 1, 2 are
1, 0, 1; the two key-1 records keep their original order. -/
example :
    rank (fun v : ℕ => (v : ℤ) / 2) 1 3 [5, 3, 1, 2, 0]
      = [(1, 0), (0, 0), (3, 1)] := by decide

/-- Concrete instance of `rank_spec`: radius 3 is non-negative and the
output of a four-element ranking is capped at the limit 2. -/
theorem rank_spec_witness :
    (0 : ℤ) ≤ 3 ∧ (rank (fun v : ℕ => (v : ℤ)) 3 2 [2, 1, 4, 1]).length ≤ 2 :=
  ⟨by decide, (rank_spec (fun v : ℕ => (v : ℤ)) 3 2 [2, 1, 4, 1] (by decide)).2.2.1⟩

/-- Claim C3: if either upstream fetch of the report returns a
non-success status, the whole report fails with a single upstream error
and no partial output of any kind is produced. -/
theorem report_fails_atomically {α : Type} [LinearOrder α] (lat lon : ℝ)
    (d : Volcano → α) (rnd : α → ℤ) (radiusKm : α)
    (eqResp : Response EarthquakeData) (vResp : Response (List Volcano))
    (h : eqResp.ok = false ∨ vResp.ok = false) :
    (∃ e, reportCore lat lon d rnd radiusKm eqResp vResp = Except.error e)
    ∧ ∀ out, reportCore lat lon d rnd radiusKm eqResp vResp ≠ Except.ok out := by
  have herr : ∃ e, reportCore lat lon d rnd radiusKm eqResp vResp = Except.error e := by
    rcases h with h | h
    · exact ⟨"API error: " ++ toString eqResp.status,
        by simp [reportCore, fetchJSON, h]⟩
    · by_cases hq : eqResp.ok
      · exact ⟨"API error: " ++ toString vResp.status,
          by simp [reportCore, fetchJSON, hq, h]⟩
      · exact ⟨"API error: " ++ toString eqResp.status,
          by simp [reportCore, fetchJSON, hq]⟩
  refine ⟨herr, ?_⟩
  intro out hok
  rcases herr with ⟨e, he⟩
  rw [he] at hok
  exact Except.noConfusion hok

/-- Concrete instance of `report_fails_atomically`: the volcano fetch
responds with status 503 while the earthquake fetch succeeds. -/
theorem report_fails_atomically_witness :
    (∃ e, reportCore 0 0 (fun _ => (0 : ℚ)) (fun _ => 0) 300
        ⟨true, 200, ⟨1, [sampleFeature]⟩⟩ ⟨false, 503, []⟩ = Except.error e)
    ∧ ∀ out, reportCore 0 0 (fun _ => (0 : ℚ)) (fun _ => 0) 300
        ⟨true, 200, ⟨1, [sampleFeature]⟩⟩ ⟨false, 503, []⟩ ≠ Except.ok out :=
  report_fails_atomically 0 0 (fun _ => (0 : ℚ)) (fun _ => 0) 300
    ⟨true, 200, ⟨1, [sampleFeature]⟩⟩ ⟨false, 503, []⟩ (Or.inr rfl)

/-- Claim C10: in a successful report, the nearby-volcano
count equals the length of its `nearbyVolcanoes` list, and its
`riskAssessment.significantQuakes` equals the number of returned
features with magnitude ≥ 4. -/
theorem report_counts_consistent {α : Type} [LinearOrder α] (lat lon : ℝ)
    (d : Volcano → α) (rnd : α → ℤ) (radiusKm : α)
    (eqResp : Response EarthquakeData) (vResp : Response (List Volcano))
    (h1 : eqResp.ok = true) (h2 : vResp.ok = true) :
    ∃ out, reportCore lat lon d rnd radiusKm eqResp vResp = Except.ok out
      ∧ out.nearbyVolcanoCount = out.nearbyVolcanoes.length
      ∧ out.significantQuakes
          = (eqResp.body.features.filter fun f => (4 : ℚ) ≤ f.mag).length := by
  refine ⟨shapeReport lat lon d rnd radiusKm eqResp.body vResp.body, ?_, ?_, ?_⟩
  · simp [reportCore, fetchJSON, h1, h2]
  · simp [shapeReport, List.length_map]
  · rfl

/-- Concrete instance of `report_counts_consistent`: both upstream
fetches succeed with one feature and one volcano record. -/
theorem report_counts_consistent_witness :
    ∃ out, reportCore 0 0 (fun _ => (0 : ℚ)) (fun _ => 0) 300
        ⟨true, 200, ⟨1, [sampleFeature]⟩⟩ ⟨true, 200, [sampleVolcano]⟩ = Except.ok out
      ∧ out.nearbyVolcanoCount = out.nearbyVolcanoes.length
      ∧ out.significantQuakes
          = (([sampleFeature] : List Feature).filter fun f => (4 : ℚ) ≤ f.mag).length :=
  report_counts_consistent 0 0 (fun _ => (0 : ℚ)) (fun _ => 0) 300
    ⟨true, 200, ⟨1, [sampleFeature]⟩⟩ ⟨true, 200, [sampleVolcano]⟩ rfl rfl

/-- A latitude within `[-90, 90]` degrees has a non-negative cosine once
converted to radians. -/
theorem cos_toRad_lat_nonneg {lat : ℝ} (h1 : -90 ≤ lat) (h2 : lat ≤ 90) :
    0 ≤ Real.cos (toRad lat) := by
  apply Real.cos_nonneg_of_mem_Icc
  unfold toRad
  constructor
  · have hmul : 0 ≤ (lat + 90) * Real.pi :=
      mul_nonneg (by linarith) Real.pi_pos.le
    nlinarith [Real.pi_pos]
  · have hmul : 0 ≤ (90 - lat) * Real.pi :=
      mul_nonneg (by linarith) Real.pi_pos.le
    nlinarith [Real.pi_pos]

/-- The haversine intermediate value `a` is non-negative for valid
latitudes. -/
theorem haversineA_nonneg (lat1 lon1 lat2 lon2 : ℝ)
    (h1 : -90 ≤ lat1) (h2 : lat1 ≤ 90) (h3 : -90 ≤ lat2) (h4 : lat2 ≤ 90) :
    0 ≤ haversineA lat1 lon1 lat2 lon2 := by
  have hc1 := cos_toRad_lat_nonneg h1 h2
  have hc2 := cos_toRad_lat_nonneg h3 h4
  unfold haversineA
  nlinarith [mul_self_nonneg (Real.sin (toRad (lat2 - lat1) / 2)),
    mul_self_nonneg (Real.sin (toRad (lon2 - lon1) / 2)),
    mul_nonneg hc1 hc2]

/-- The haversine intermediate value `a` is at most 1 for valid
latitudes, so the inner square root argument is within its domain. -/
theorem haversineA_le_one (lat1 lon1 lat2 lon2 : ℝ)
    (h1 : -90 ≤ lat1) (h2 : lat1 ≤ 90) (h3 : -90 ≤ lat2) (h4 : lat2 ≤ 90) :
    haversineA lat1 lon1 lat2 lon2 ≤ 1 := by
  have hc1 := cos_toRad_lat_nonneg h1 h2
  have hc2 := cos_toRad_lat_nonneg h3 h4
  have hcc : 0 ≤ Real.cos (toRad lat1) * Real.cos (toRad lat2) :=
    mul_nonneg hc1 hc2
  have hL : Real.sin (toRad (lat2 - lat1) / 2) ^ 2
      = 1 / 2 - Real.cos (2 * (toRad (lat2 - lat1) / 2)) / 2 :=
    Real.sin_sq_eq_half_sub _
  have h2L : 2 * (toRad (lat2 - lat1) / 2) = toRad lat2 - toRad lat1 := by
    unfold toRad; ring
  rw [h2L, Real.cos_sub] at hL
  have hadd := Real.cos_le_one (toRad lat1 + toRad lat2)
  rw [Real.cos_add] at hadd
  have hsD := Real.sin_sq_le_one (toRad (lon2 - lon1) / 2)
  have hprod := mul_le_mul_of_nonneg_left hsD hcc
  unfold haversineA
  nlinarith [hL, hadd, hprod, hcc,
    sq_nonneg (Real.sin (toRad (lon2 - lon1) / 2))]

/-- The value atan2 y x is non-negative whenever y is. -/
theorem atan2_nonneg (y x : ℝ) (hy : 0 ≤ y) : 0 ≤ atan2 y x := by
  unfold atan2
  exact Complex.arg_nonneg_iff.mpr hy

/-- The value of atan2 at (0, 1) is zero. -/
theorem atan2_zero_one : atan2 0 1 = 0 := by
  unfold atan2
  have h : (⟨1, 0⟩ : ℂ) = 1 := by
    apply Complex.ext <;> simp
  rw [h, Complex.arg_one]

/-- The haversine distance is non-negative (for all real inputs: the
numerator of the `atan2` is a square root, hence non-negative). -/
theorem haversine_nonneg (lat1 lon1 lat2 lon2 : ℝ) :
    0 ≤ haversine lat1 lon1 lat2 lon2 := by
  unfold haversine
  have h := atan2_nonneg (Real.sqrt (haversineA lat1 lon1 lat2 lon2))
    (Real.sqrt (1 - haversineA lat1 lon1 lat2 lon2))
    (Real.sqrt_nonneg (haversineA lat1 lon1 lat2 lon2))
  positivity

/-- Claim C4: for valid inputs the distance calculation has no domain
error — the intermediate value `a` provably lies in `[0, 1]`, both square
root arguments are non-negative, the clamped variant the spec describes
computes exactly the same value as the unclamped source code, and the
result is a well-defined real ≥ 0. -/
theorem haversine_domain_safe (lat1 lon1 lat2 lon2 : ℝ)
    (h1 : -90 ≤ lat1) (h2 : lat1 ≤ 90) (h3 : -90 ≤ lat2) (h4 : lat2 ≤ 90)
    (h5 : -180 ≤ lon1) (h6 : lon1 ≤ 180) (h7 : -180 ≤ lon2) (h8 : lon2 ≤ 180) :
    0 ≤ haversineA lat1 lon1 lat2 lon2
    ∧ haversineA lat1 lon1 lat2 lon2 ≤ 1
    ∧ haversineClamped lat1 lon1 lat2 lon2 = haversine lat1 lon1 lat2 lon2
    ∧ 0 ≤ haversine lat1 lon1 lat2 lon2 := by
  have ha0 := haversineA_nonneg lat1 lon1 lat2 lon2 h1 h2 h3 h4
  have ha1 := haversineA_le_one lat1 lon1 lat2 lon2 h1 h2 h3 h4
  have hclamp : clamp01 (haversineA lat1 lon1 lat2 lon2)
      = haversineA lat1 lon1 lat2 lon2 := by
    unfold clamp01
    rw [min_eq_right ha1, max_eq_right ha0]
  refine ⟨ha0, ha1, ?_, haversine_nonneg lat1 lon1 lat2 lon2⟩
  unfold haversineClamped haversine
  rw [hclamp]

/-- Concrete instance of `haversine_domain_safe` at Tokyo (35.68, 139.65)
and the antipode-leaning point (-35.68, -40.35). -/
theorem haversine_domain_safe_witness :
    0 ≤ haversineA 35.68 139.65 (-35.68) (-40.35)
    ∧ haversineA 35.68 139.65 (-35.68) (-40.35) ≤ 1
    ∧ haversineClamped 35.68 139.65 (-35.68) (-40.35)
        = haversine 35.68 139.65 (-35.68) (-40.35)
    ∧ 0 ≤ haversine 35.68 139.65 (-35.68) (-40.35) :=
  haversine_domain_safe 35.68 139.65 (-35.68) (-40.35)
    (by norm_num) (by norm_num) (by norm_num) (by norm_num)
    (by norm_num) (by norm_num) (by norm_num) (by norm_num)

/-- The haversine intermediate value is symmetric in its two points. -/
theorem haversineA_comm (lat1 lon1 lat2 lon2 : ℝ) :
    haversineA lat1 lon1 lat2 lon2 = haversineA lat2 lon2 lat1 lon1 := by
  unfold haversineA
  have e1 : toRad (lat1 - lat2) = -toRad (lat2 - lat1) := by
    unfold toRad; ring
  have e2 : toRad (lon1 - lon2) = -toRad (lon2 - lon1) := by
    unfold toRad; ring
  rw [e1, e2, neg_div, neg_div, Real.sin_neg, Real.sin_neg]
  ring

/-- Claim C8: the distance of a valid point to itself is 0, and the
distance calculator is symmetric on valid points. -/
theorem haversine_zero_and_comm (lat lon lat1 lon1 lat2 lon2 : ℝ)
    (hp : -90 ≤ lat ∧ lat ≤ 90 ∧ -180 ≤ lon ∧ lon ≤ 180)
    (ha : -90 ≤ lat1 ∧ lat1 ≤ 90 ∧ -180 ≤ lon1 ∧ lon1 ≤ 180)
    (hb : -90 ≤ lat2 ∧ lat2 ≤ 90 ∧ -180 ≤ lon2 ∧ lon2 ≤ 180) :
    haversine lat lon lat lon = 0
    ∧ haversine lat1 lon1 lat2 lon2 = haversine lat2 lon2 lat1 lon1 := by
  constructor
  · have hA : haversineA lat lon lat lon = 0 := by
      unfold haversineA toRad
      simp
    unfold haversine
    rw [hA]
    norm_num [Real.sqrt_zero, Real.sqrt_one, atan2_zero_one]
  · unfold haversine
    rw [haversineA_comm lat1 lon1 lat2 lon2]

/-- Concrete instance of `haversine_zero_and_comm` at (10, 20), (0, 0)
and (45, 90). -/
theorem haversine_zero_and_comm_witness :
    haversine 10 20 10 20 = 0
    ∧ haversine 0 0 45 90 = haversine 45 90 0 0 :=
  haversine_zero_and_comm 10 20 0 0 45 90
    (by norm_num) (by norm_num) (by norm_num)

end Geohazards
